import Mathlib

/-!
Shallow embedding of `utils/models.py` (django-utils): queryset and manager
mixins.  Python values are modelled by `PyVal`, raised exceptions by `PyExc`
(with the Django exception-class hierarchy reflected in `catches`), and
fallible Python code by `Except PyExc`.  Querysets are modelled either
syntactically (constructor tree `QS`, for claims about which framework calls
are delegated to) or semantically (lists of attribute maps, for claims about
which rows survive a filter).
-/

/-- A Python runtime value, as far as this module manipulates them:
`None`, integers and strings. -/
inductive PyVal where
  | none : PyVal
  | int : Int → PyVal
  | str : String → PyVal
deriving DecidableEq, Repr

/-- Python truthiness of a `PyVal` (`if v:`). -/
def PyVal.truthy : PyVal → Bool
  | .none => false
  | .int n => n ≠ 0
  | .str s => s ≠ ""

/-- Exceptions that the module raises or handles.  `modelDoesNotExist` is
`self.model.DoesNotExist`, a subclass of `objectDoesNotExist`
(`django.core.exceptions.ObjectDoesNotExist`). -/
inductive PyExc where
  | objectDoesNotExist : PyExc
  | modelDoesNotExist : PyExc
  | multipleObjectsReturned : PyExc
  | integrityError : String → PyExc
  | typeError : String → PyExc
  | unboundLocalError : String → PyExc
  | valueError : String → PyExc
  | keyError : String → PyExc
  | otherExc : String → PyExc
deriving DecidableEq, Repr

/-- The exception classes named in `except ...:` clauses of the module. -/
inductive PyExcClass where
  | clsObjectDoesNotExist : PyExcClass
  | clsModelDoesNotExist : PyExcClass
  | clsMultipleObjectsReturned : PyExcClass
  | clsKeyError : PyExcClass
deriving DecidableEq, Repr

/-- Whether an `except C:` clause for class `c` catches exception `e`
(instance-of, including Django's subclass relation
`model.DoesNotExist <: ObjectDoesNotExist`). -/
def catches : PyExc → PyExcClass → Bool
  | .objectDoesNotExist, .clsObjectDoesNotExist => true
  | .modelDoesNotExist, .clsObjectDoesNotExist => true
  | .modelDoesNotExist, .clsModelDoesNotExist => true
  | .multipleObjectsReturned, .clsMultipleObjectsReturned => true
  | .keyError _, .clsKeyError => true
  | _, _ => false

/-- A model instance as far as uniqueness checking sees it: its primary key
and its `str()` rendering. -/
structure ModelObj where
  pk : Int
  descr : String
deriving DecidableEq, Repr

/-- Keyword arguments / Python dicts are association lists with unique keys;
`List.lookup` is dict item access. -/
abbrev Kwargs := List (String × PyVal)

/-- `d.pop(k, default)`: remove and return `d[k]` when present, otherwise
return `default` and leave the dict unchanged. -/
def dictPop (d : Kwargs) (k : String) (default : PyVal) : PyVal × Kwargs :=
  match d.lookup k with
  | some v => (v, d.filter (fun kv => kv.1 ≠ k))
  | Option.none => (default, d)

/-- `d.get(k, default)`. -/
def dictGet (d : Kwargs) (k : String) (default : PyVal) : PyVal :=
  match d.lookup k with
  | some v => v
  | Option.none => default

/-! ## QuerySetMixin.get_or_none (models.py lines 7-11)

The queryset is represented by its `get` method: the outcome of
`self.get(**kwargs)` for each keyword-argument dict. -/

/-- `QuerySetMixin.get_or_none`: `try: return self.get(**kwargs)
except self.model.DoesNotExist: return None`. -/
def get_or_none (get : Kwargs → Except PyExc ModelObj) (kwargs : Kwargs) :
    Except PyExc (Option ModelObj) :=
  match get kwargs with
  | .ok v => .ok (some v)
  | .error e =>
      if catches e .clsModelDoesNotExist then .ok Option.none else .error e

/-! ## PaginatorMixin.paginate (models.py lines 97-99)

For this mixin the queryset is its list of rows; `self.all()` returns the
queryset itself and Python slicing `xs[a:b]` for non-negative bounds is
`(xs.take b).drop a`. -/

/-- `self.all()` on a queryset: the same elements. -/
def qsAll (qs : List ModelObj) : List ModelObj := qs

/-- Python list/queryset slice `xs[a:b]` for non-negative `a`, `b`. -/
def pySlice (a b : Nat) (xs : List ModelObj) : List ModelObj :=
  (xs.take b).drop a

/-- `PaginatorMixin.paginate(limit, offset)`:
`self.all()[offset:offset + limit]`. -/
def paginate (qs : List ModelObj) (limit offset : Nat) : List ModelObj :=
  pySlice offset (offset + limit) (qsAll qs)

/-- The call `self.paginate()` with both arguments left at their defaults
`limit=10`, `offset=0`. -/
def paginateDefault (qs : List ModelObj) : List ModelObj :=
  paginate qs 10 0

/-! ## VerifyUniqueMixin.x_verify_unique (models.py lines 73-85)

The `query` argument is a Python callable.  Its arity matters (the default
is the one-parameter `lambda x: None`, which the method then calls with no
arguments), so a callable is modelled by its parameter count together with
the outcome of a zero-argument invocation; that outcome is only reachable
when the arity is `0`. -/

/-- A Python callable as `x_verify_unique` uses one: `arity` formal
parameters, and `run0` the outcome of the body when invoked with zero
arguments (meaningful only when `arity = 0`). -/
structure PyCallable where
  arity : Nat
  run0 : Except PyExc (Option ModelObj)

/-- Invoking a callable with zero arguments: a `TypeError` when the arity is
not `0`, the body outcome otherwise. -/
def callWithNoArgs (c : PyCallable) : Except PyExc (Option ModelObj) :=
  if c.arity = 0 then c.run0
  else .error (.typeError "missing required positional argument")

/-- The default value of the `query` parameter: `lambda x: None`, a
one-parameter function returning `None`. -/
def defaultQuery : PyCallable :=
  ⟨1, .ok Option.none⟩

/-- `VerifyUniqueMixin.x_verify_unique(self, query)`:
`try: other = query()` with `except ObjectDoesNotExist: pass`,
`except MultipleObjectsReturned: raise IntegrityError(...)`, and otherwise
`if other is not None and self.pk != other.pk: raise IntegrityError(...)`. -/
def x_verify_unique (self : ModelObj) (query : PyCallable) :
    Except PyExc Unit :=
  match callWithNoArgs query with
  | .error e =>
      if catches e .clsObjectDoesNotExist then .ok ()
      else if catches e .clsMultipleObjectsReturned then
        .error (.integrityError ("Invalid state, unique constraint " ++ self.descr))
      else .error e
  | .ok other =>
      match other with
      | Option.none => .ok ()
      | some o =>
          if self.pk ≠ o.pk then
            .error (.integrityError ("Unique constraint violated " ++ self.descr))
          else .ok ()

/-- The call `self.x_verify_unique()` with the `query` argument left at its
default. -/
def x_verify_unique_noarg (self : ModelObj) : Except PyExc Unit :=
  x_verify_unique self defaultQuery

/-- Whether an outcome is a raised `IntegrityError`. -/
def isIntegrityError : Except PyExc Unit → Bool
  | .error (.integrityError _) => true
  | _ => false

/-! ## MapFilterMixin, TimestampMixin, managers (models.py lines 52-66, 87-95,
101-132)

For claims about which framework calls these mixins delegate to, a queryset
is a syntax tree of the framework operations applied to it. -/

/-- Python `%`-formatting `template % key` for the string templates this
module uses (a single `%s` placeholder): the first `%s` is replaced by
`key`. -/
def pyFormat (template key : String) : String :=
  match template.splitOn "%s" with
  | [] => template
  | [s] => s
  | s :: rest => s ++ key ++ String.intercalate "%s" rest

/-- A queryset as the tree of framework operations applied to a base
queryset: `filter(**kwargs)` nodes and `paginate(limit, offset)` nodes
(the latter with its arguments resolved against the defaults `10` and
`0`). -/
inductive QS where
  | base : QS
  | qfilter : QS → Kwargs → QS
  | qpaginate : QS → Int → Int → QS
deriving DecidableEq, Repr

/-- `MapFilterMixin.map_filter(template, callback, **kwargs)`:
`self.filter(**dict((template % key, callback(val)) for key, val in
kwargs.items()))`. -/
def map_filter (self : QS) (template : String) (callback : PyVal → PyVal)
    (kwargs : Kwargs) : QS :=
  QS.qfilter self (kwargs.map (fun kv => (pyFormat template kv.1, callback kv.2)))

/-- The identity callback `lambda x: x`, the default value of `callback`. -/
def idCallback : PyVal → PyVal := fun x => x

/-- `TimestampMixin.before(**kwargs)`: `self.map_filter('%s__lt', **kwargs)`
(callback left at its default). -/
def qsBefore (self : QS) (kwargs : Kwargs) : QS :=
  map_filter self "%s__lt" idCallback kwargs

/-- `TimestampMixin.after(**kwargs)`: `self.map_filter('%s__gt', **kwargs)`. -/
def qsAfter (self : QS) (kwargs : Kwargs) : QS :=
  map_filter self "%s__gt" idCallback kwargs

/-- `TimestampMixin.ubefore(**kwargs)`: `self.map_filter('%s__lt', **kwargs)`. -/
def qsUbefore (self : QS) (kwargs : Kwargs) : QS :=
  map_filter self "%s__lt" idCallback kwargs

/-- `TimestampMixin.uafter(**kwargs)`: `self.map_filter('%s__gt', **kwargs)`. -/
def qsUafter (self : QS) (kwargs : Kwargs) : QS :=
  map_filter self "%s__gt" idCallback kwargs

/-! ## FilterManager / ExcludeManager (models.py lines 52-66)

For the claim about which rows these managers' querysets contain, a row is
an attribute map and the parent manager's queryset (`Manager.get_query_set`,
all rows of the table) is a list of rows; `filter(**kwargs)` keeps the rows
matching every keyword pair, `exclude(**kwargs)` drops them. -/

/-- A database row, by its field values. -/
abbrev Row := List (String × PyVal)

/-- A row matches `**kwargs` when every keyword pair agrees with the row's
field value. -/
def rowMatches (kwargs : Kwargs) (row : Row) : Bool :=
  kwargs.all (fun kv => row.lookup kv.1 = some kv.2)

/-- The framework's `queryset.filter(**kwargs)`. -/
def qsFilter (qs : List Row) (kwargs : Kwargs) : List Row :=
  qs.filter (fun row => rowMatches kwargs row)

/-- The framework's `queryset.exclude(**kwargs)`. -/
def qsExclude (qs : List Row) (kwargs : Kwargs) : List Row :=
  qs.filter (fun row => !(rowMatches kwargs row))

/-- The parent `Manager.get_query_set`: every row of the table. -/
def managerGetQuerySet (table : List Row) : List Row := table

/-- `FilterManager(**kwargs)` stores `kwargs` at construction time. -/
structure FilterManager where
  kwargs : Kwargs

/-- `FilterManager.get_query_set`:
`super(FilterManager, self).get_query_set().filter(**self.kwargs)`. -/
def FilterManager.get_query_set (self : FilterManager) (table : List Row) :
    List Row :=
  qsFilter (managerGetQuerySet table) self.kwargs

/-- `ExcludeManager(**kwargs)` stores `kwargs` at construction time. -/
structure ExcludeManager where
  kwargs : Kwargs

/-- `ExcludeManager.get_query_set`:
`super(ExcludeManager, self).get_query_set().exclude(**self.kwargs)`. -/
def ExcludeManager.get_query_set (self : ExcludeManager) (table : List Row) :
    List Row :=
  qsExclude (managerGetQuerySet table) self.kwargs

/-! ## PolyModel.proxy (models.py lines 46-50)

Attribute dictionaries live on a heap; an object is a reference to its
`__dict__`.  This makes the aliasing performed by
`proxy_obj.__dict__ = self.__dict__` observable. -/

/-- The heap of attribute dictionaries; an object's `__dict__` is
`dicts[o.dictRef]`. -/
structure Heap where
  dicts : List Row
deriving DecidableEq, Repr

/-- An object: a reference into the heap to its `__dict__`. -/
structure PyObj where
  dictRef : Nat
deriving DecidableEq, Repr

/-- Dictionary assignment `d[k] = v`. -/
def setAttrMap (d : Row) (k : String) (v : PyVal) : Row :=
  (k, v) :: d.filter (fun kv => kv.1 ≠ k)

/-- `getattr(o, k)`: look `k` up in the object's `__dict__`. -/
def Heap.getattrOf (h : Heap) (o : PyObj) (k : String) : Option PyVal :=
  (h.dicts.getD o.dictRef []).lookup k

/-- `setattr(o, k, v)`: update the object's `__dict__` in place. -/
def Heap.setattrOf (h : Heap) (o : PyObj) (k : String) (v : PyVal) : Heap :=
  ⟨h.dicts.set o.dictRef (setAttrMap (h.dicts.getD o.dictRef []) k v)⟩

/-- `PolyModel.proxy(self, proxy_cls)`: `proxy_obj = proxy_cls()` allocates a
fresh object with a fresh empty `__dict__`; `proxy_obj.__dict__ =
self.__dict__` then rebinds the new object's dictionary reference to the
very dictionary of `self`; the object is returned. -/
def proxy (h : Heap) (self : PyObj) : Heap × PyObj :=
  let h1 : Heap := ⟨h.dicts ++ [[]]⟩
  let _fresh : PyObj := ⟨h.dicts.length⟩
  let proxy_obj : PyObj := ⟨self.dictRef⟩
  (h1, proxy_obj)

/-! ## ExternalManager.put (models.py lines 193-217)

The model class is reflection data: its list of fields, each either a
`ForeignKey` or not.  `put(**data)` builds an instance (an attribute map),
fills the non-relational fields from `data`, then runs the
`try/except KeyError` loop over the foreign-key fields, saves and returns
the instance. -/

/-- A model field as `_meta.fields` exposes it: its name and whether its
type is `ForeignKey`. -/
structure FieldInfo where
  name : String
  isFK : Bool
deriving DecidableEq, Repr

/-- Python dict subscription `d[k]`: `KeyError` when absent. -/
def dictGetItem (d : Kwargs) (k : String) : Except PyExc PyVal :=
  match d.lookup k with
  | some v => .ok v
  | Option.none => .error (.keyError k)

/-- One iteration of the foreign-key loop of `put`:
`try: setattr(obj, name, data[name]) except KeyError:
 try: name = name + '_id'; setattr(obj, name, data[name])
 except KeyError: pass`. -/
def putFKStep (data : Kwargs) (obj : Row) (name : String) : Row :=
  match dictGetItem data name with
  | .ok v => setAttrMap obj name v
  | .error _ =>
      let name := name ++ "_id"
      match dictGetItem data name with
      | .ok v => setAttrMap obj name v
      | .error _ => obj

/-- `ExternalManager.put(**data)`: the attribute map of the instance that is
saved and returned.  `fields = dict((key, val) for key, val in data.items()
if key in non-FK field names)`; `obj = self.model(**fields)`; then the
foreign-key loop; `obj.save()` persists the very instance that is
returned. -/
def put (flds : List FieldInfo) (data : Kwargs) : Row :=
  let nonFKnames := (flds.filter (fun f => !f.isFK)).map (fun f => f.name)
  let fieldsInit := data.filter (fun kv => nonFKnames.contains kv.1)
  let fkNames := (flds.filter (fun f => f.isFK)).map (fun f => f.name)
  fkNames.foldl (fun obj name => putFKStep data obj name) fieldsInit

/-- `put` as the claim describes it: the non-foreign-key fields are
initialized from exactly those entries of `data` whose keys name
non-foreign-key model fields; each foreign-key field named `name` is set
from `data[name]`, or from `data[name + '_id']` (under the attribute
`name + '_id'`) when key `name` is absent, and left unset when both keys
are absent; keys of `data` naming no model field are ignored. -/
def putAsSpecified (flds : List FieldInfo) (data : Kwargs) : Row :=
  let init := data.filter (fun kv => flds.any (fun f => !f.isFK && f.name == kv.1))
  (flds.filter (fun f => f.isFK)).foldl
    (fun obj f =>
      match data.lookup f.name with
      | some v => setAttrMap obj f.name v
      | Option.none =>
          match data.lookup (f.name ++ "_id") with
          | some v => setAttrMap obj (f.name ++ "_id") v
          | Option.none => obj)
    init

/-! ## RequestQuerySet.request (models.py lines 135-186)

The function manipulates six local variables whose bindings depend on the
branch taken at `if req:`; Python raises `UnboundLocalError` when a local
is read before any assignment to it.  A possibly-unbound local is an
`Option PyVal` (`Option.none` = not yet assigned), and `readLocal` is the
act of reading it. -/

/-- An HTTP request as `request` sees it: its `GET` query dict. -/
structure HttpReq where
  GET : Kwargs

/-- Reading a local variable: `UnboundLocalError` when it has not been
assigned on the path taken. -/
def readLocal (nm : String) (v : Option PyVal) : Except PyExc PyVal :=
  match v with
  | some x => .ok x
  | Option.none => .error (.unboundLocalError nm)

/-- Python `int(v)` on the values this function feeds it. -/
def pyIntOf : PyVal → Except PyExc Int
  | .int n => .ok n
  | .str s =>
      match s.trim.toInt? with
      | some n => .ok n
      | Option.none => .error (.valueError ("invalid literal for int: " ++ s))
  | .none => .error (.typeError "int() argument must not be None")

/-- The `if req: ... else: ...` prologue of `request`, returning the
bindings of the locals `offset`, `limit`, `ubefore`, `before`, `uafter`,
`after` in that order (`Option.none` = the branch did not assign the
local).  In the `req` branch, `before` is only assigned when the `ubefore`
query parameter is falsy, and `after` only when `uafter` is falsy; in the
`else` branch, `ubefore` and `uafter` are never assigned. -/
def requestLocals (req : Option HttpReq) :
    PyVal × PyVal × Option PyVal × Option PyVal × Option PyVal × Option PyVal :=
  match req with
  | some r =>
      let offset := dictGet r.GET "offset" (.int 0)
      let limit := dictGet r.GET "limit" (.int 10)
      let ubefore := dictGet r.GET "ubefore" .none
      let beforeL := if ubefore.truthy then Option.none
                     else some (dictGet r.GET "before" .none)
      let uafter := dictGet r.GET "uafter" .none
      let afterL := if uafter.truthy then Option.none
                    else some (dictGet r.GET "after" .none)
      (offset, limit, some ubefore, beforeL, some uafter, afterL)
  | Option.none =>
      (.int 0, .int 10, Option.none, some .none, Option.none, some .none)

/-- `RequestQuerySet.request(self, req=None, **kwargs)`, transcribed
statement by statement, including the reads of possibly-unbound locals
(the defaults of `kwargs.pop('ubefore', ubefore)` etc. are evaluated
before the pop, even when the key is present in `kwargs`). -/
def request (self : QS) (req : Option HttpReq) (kwargs0 : Kwargs) :
    Except PyExc QS := do
  let locals0 := requestLocals req
  let offset0 := locals0.1
  let limit0 := locals0.2.1
  let ubeforeL := locals0.2.2.1
  let beforeL := locals0.2.2.2.1
  let uafterL := locals0.2.2.2.2.1
  let afterL := locals0.2.2.2.2.2
  let p1 := dictPop kwargs0 "offset" offset0
  let offset1 := p1.1
  let p2 := dictPop p1.2 "limit" limit0
  let limit1 := p2.1
  let ubdefault ← readLocal "ubefore" ubeforeL
  let p3 := dictPop p2.2 "ubefore" ubdefault
  let ubefore1 := p3.1
  let kwargs4 ←
    if ubefore1.truthy then pure p3.2
    else do
      let bdefault ← readLocal "before" beforeL
      pure (dictPop p3.2 "ubefore" bdefault).2
  let uadefault ← readLocal "uafter" uafterL
  let p5 := dictPop kwargs4 "uafter" uadefault
  let uafter1 := p5.1
  let st6 ←
    if ubefore1.truthy then pure (afterL, p5.2)
    else do
      let adefault ← readLocal "after" afterL
      let p6 := dictPop p5.2 "after" adefault
      pure (some p6.1, p6.2)
  let afterL2 := st6.1
  let kwargs6 := st6.2
  let qs0 := QS.qfilter self kwargs6
  let qs1 ←
    if ubefore1 ≠ PyVal.none then
      pure (qsUbefore qs0 [("timestamp", ubefore1)])
    else do
      let b ← readLocal "before" beforeL
      if b ≠ PyVal.none then pure (qsBefore qs0 [("pk", b)]) else pure qs0
  let qs2 ←
    if uafter1 ≠ PyVal.none then
      pure (qsUafter qs1 [("timestamp", uafter1)])
    else do
      let a ← readLocal "after" afterL2
      if a ≠ PyVal.none then pure (qsAfter qs1 [("pk", a)]) else pure qs1
  let offsetI ←
    if offset1 ≠ PyVal.none then do
      let n ← pyIntOf offset1
      pure (some n)
    else pure (Option.none : Option Int)
  let limitI ←
    if limit1 ≠ PyVal.none then do
      let n ← pyIntOf limit1
      pure (some n)
    else pure (Option.none : Option Int)
  pure (QS.qpaginate qs2 (limitI.getD 10) (offsetI.getD 0))

/-! ## Theorems -/

/-- Helper: `paginate` is take-after-drop. -/
theorem paginate_eq_drop_take (qs : List ModelObj) (limit offset : Nat) :
    paginate qs limit offset = ((qsAll qs).drop offset).take limit := by
  unfold paginate pySlice
  rw [List.drop_take]
  congr 1
  omega

/-- C4: `QuerySetMixin.get_or_none(**kwargs)` returns the result of
`self.get(**kwargs)` when the lookup succeeds, returns `None` when `get`
raises `self.model.DoesNotExist`, and propagates every other exception
(including `MultipleObjectsReturned`) unchanged. -/
theorem get_or_none_spec :
    ∀ (g : Kwargs → Except PyExc ModelObj) (kwargs : Kwargs),
      get_or_none g kwargs =
        match g kwargs with
        | .ok v => .ok (some v)
        | .error e =>
            if e = PyExc.modelDoesNotExist then .ok Option.none
            else .error e := by
  intro g kwargs
  unfold get_or_none
  cases g kwargs with
  | ok v => rfl
  | error e => cases e <;> simp [catches]

/-- C6: `PaginatorMixin.paginate(limit, offset)` is the slice of
`self.all()` from index `offset` up to but not including `offset + limit`:
at most `limit` elements, the `i`-th being element `offset + i` of the
queryset; the defaults are `limit=10`, `offset=0`. -/
theorem paginate_spec :
    ∀ (qs : List ModelObj) (limit offset : Nat),
      paginate qs limit offset = ((qsAll qs).drop offset).take limit
      ∧ (paginate qs limit offset).length ≤ limit
      ∧ (∀ i : Nat, (paginate qs limit offset)[i]? =
          if i < limit then (qsAll qs)[offset + i]? else Option.none)
      ∧ paginateDefault qs = (qsAll qs).take 10 := by
  intro qs limit offset
  refine ⟨paginate_eq_drop_take qs limit offset, ?_, ?_, ?_⟩
  · rw [paginate_eq_drop_take]
    simp [List.length_take]
  · intro i
    rw [paginate_eq_drop_take, List.getElem?_take]
    by_cases h : i < limit
    · simp [h, List.getElem?_drop]
    · simp [h]
  · unfold paginateDefault
    rw [paginate_eq_drop_take]
    simp

/-- C10: calling `x_verify_unique` with the `query` argument left at its
default always raises `TypeError`: the default `lambda x: None` takes one
parameter but is invoked with zero arguments, and no `except` clause of
the method catches `TypeError`, so it propagates before any uniqueness
check happens. -/
theorem x_verify_unique_noarg_typeerror :
    ∀ self : ModelObj,
      x_verify_unique_noarg self =
        Except.error (PyExc.typeError "missing required positional argument") := by
  intro self
  rfl

/-- C9: `TimestampMixin.ubefore` coincides with `before` and `uafter`
with `after`: for every kwargs, `ubefore`/`before` both equal
`map_filter('%s__lt', **kwargs)` and `uafter`/`after` both equal
`map_filter('%s__gt', **kwargs)`. -/
theorem timestamp_bounds_coincide :
    ∀ (self : QS) (kwargs : Kwargs),
      qsUbefore self kwargs = qsBefore self kwargs
      ∧ qsUafter self kwargs = qsAfter self kwargs
      ∧ qsBefore self kwargs = map_filter self "%s__lt" idCallback kwargs
      ∧ qsUbefore self kwargs = map_filter self "%s__lt" idCallback kwargs
      ∧ qsAfter self kwargs = map_filter self "%s__gt" idCallback kwargs
      ∧ qsUafter self kwargs = map_filter self "%s__gt" idCallback kwargs := by
  intro self kwargs
  exact ⟨rfl, rfl, rfl, rfl, rfl, rfl⟩

/-- C5: `MapFilterMixin.map_filter(template, callback, **kwargs)` is exactly
`self.filter` applied to the dictionary that maps `template % key` to
`callback(value)` for each `(key, value)` of kwargs: membership in the
built argument dict is precisely being the image of a kwargs pair. -/
theorem map_filter_spec :
    ∀ (self : QS) (template : String) (callback : PyVal → PyVal)
      (kwargs : Kwargs),
      map_filter self template callback kwargs =
        QS.qfilter self
          (kwargs.map (fun kv => (pyFormat template kv.1, callback kv.2)))
      ∧ ∀ p : String × PyVal,
          p ∈ kwargs.map (fun kv => (pyFormat template kv.1, callback kv.2)) ↔
            ∃ kv ∈ kwargs, p = (pyFormat template kv.1, callback kv.2) := by
  intro self template callback kwargs
  refine ⟨rfl, ?_⟩
  intro p
  simp [List.mem_map, eq_comm]

/-- C7: `FilterManager(**kwargs).get_query_set()` is the parent manager's
queryset with `.filter(**kwargs)` applied and
`ExcludeManager(**kwargs).get_query_set()` is the parent's queryset with
`.exclude(**kwargs)` applied: a row is in the former queryset iff it is in
the table and matches `kwargs`, in the latter iff it is in the table and
does not match `kwargs`; nothing else is changed. -/
theorem filter_exclude_managers_spec :
    ∀ (kwargs : Kwargs) (table : List Row),
      FilterManager.get_query_set ⟨kwargs⟩ table =
        qsFilter (managerGetQuerySet table) kwargs
      ∧ ExcludeManager.get_query_set ⟨kwargs⟩ table =
        qsExclude (managerGetQuerySet table) kwargs
      ∧ (∀ row : Row, row ∈ FilterManager.get_query_set ⟨kwargs⟩ table ↔
          row ∈ table ∧ rowMatches kwargs row = true)
      ∧ (∀ row : Row, row ∈ ExcludeManager.get_query_set ⟨kwargs⟩ table ↔
          row ∈ table ∧ rowMatches kwargs row = false) := by
  intro kwargs table
  refine ⟨rfl, rfl, ?_, ?_⟩
  · intro row
    simp [FilterManager.get_query_set, qsFilter, managerGetQuerySet,
      List.mem_filter]
  · intro row
    simp [ExcludeManager.get_query_set, qsExclude, managerGetQuerySet,
      List.mem_filter]

/-- C2: the claim says `request(req=None)` with no kwargs returns the first
10 elements of the unfiltered queryset; instead, on the `req=None` path the
locals `ubefore` and `uafter` are never assigned, so the statement
`ubefore = kwargs.pop('ubefore', ubefore)` reads an unbound local and every
call with `req=None` raises `UnboundLocalError` before any filtering or
pagination, whatever the kwargs. -/
theorem request_none_raises_unbound_local :
    ∀ (self : QS) (kwargs : Kwargs),
      request self Option.none kwargs =
        Except.error (PyExc.unboundLocalError "ubefore") := by
  intro self kwargs
  rfl

/-- C1: for a zero-argument callable `query` (that does not itself raise
`IntegrityError`), `x_verify_unique(query)` raises `IntegrityError` exactly
when `query()` raises `MultipleObjectsReturned` or returns a non-`None`
object whose pk differs from `self.pk`; it returns normally when `query()`
raises `ObjectDoesNotExist` (or the model's subclass), returns `None`, or
returns an object with the same pk, catching those host-framework
exception types rather than propagating them. -/
theorem x_verify_unique_spec :
    ∀ (self : ModelObj) (query : PyCallable),
      query.arity = 0 →
      (∀ m : String, query.run0 ≠ Except.error (PyExc.integrityError m)) →
      (isIntegrityError (x_verify_unique self query) = true ↔
          (query.run0 = Except.error PyExc.multipleObjectsReturned ∨
           ∃ o : ModelObj, query.run0 = Except.ok (some o) ∧ o.pk ≠ self.pk))
      ∧ (query.run0 = Except.error PyExc.objectDoesNotExist →
           x_verify_unique self query = Except.ok ())
      ∧ (query.run0 = Except.error PyExc.modelDoesNotExist →
           x_verify_unique self query = Except.ok ())
      ∧ (query.run0 = Except.ok Option.none →
           x_verify_unique self query = Except.ok ())
      ∧ (∀ o : ModelObj, query.run0 = Except.ok (some o) → o.pk = self.pk →
           x_verify_unique self query = Except.ok ()) := by
  intro self query h0 hno
  have hcall : callWithNoArgs query = query.run0 := by
    simp [callWithNoArgs, h0]
  unfold x_verify_unique
  rw [hcall]
  cases hr : query.run0 with
  | error e =>
      cases e with
      | integrityError m => exact absurd hr (hno m)
      | objectDoesNotExist => simp [isIntegrityError, catches]
      | modelDoesNotExist => simp [isIntegrityError, catches]
      | multipleObjectsReturned => simp [isIntegrityError, catches]
      | typeError m => simp [isIntegrityError, catches]
      | unboundLocalError m => simp [isIntegrityError, catches]
      | valueError m => simp [isIntegrityError, catches]
      | keyError m => simp [isIntegrityError, catches]
      | otherExc m => simp [isIntegrityError, catches]
  | ok other =>
      cases other with
      | none => simp [isIntegrityError]
      | some o =>
          by_cases hpk : self.pk = o.pk
          · simp [isIntegrityError, hpk]
          · simp [isIntegrityError, hpk]
            intro h
            exact hpk h.symm

/-- Witness for C1: a zero-argument query raising `MultipleObjectsReturned`
makes `x_verify_unique` raise `IntegrityError`. -/
theorem x_verify_unique_spec_witness :
    ((⟨0, Except.error PyExc.multipleObjectsReturned⟩ : PyCallable).arity = 0)
    ∧ isIntegrityError
        (x_verify_unique ⟨1, "obj"⟩
          (⟨0, Except.error PyExc.multipleObjectsReturned⟩ : PyCallable)) = true := by
  refine ⟨rfl, ?_⟩
  exact ((x_verify_unique_spec ⟨1, "obj"⟩
      ⟨0, Except.error PyExc.multipleObjectsReturned⟩ rfl
      (by intro m h; simp at h)).1).mpr (Or.inl rfl)

/-- Helper: a fresh dictionary assignment is seen by `lookup`. -/
theorem lookup_setAttrMap (d : Row) (k : String) (v : PyVal) :
    (setAttrMap d k v).lookup k = some v := by
  simp [setAttrMap, List.lookup]

/-- C8: `PolyModel.proxy(proxy_cls)` returns an object whose `__dict__` is
the very dictionary of the original instance (the same heap reference, not
a copy): the proxy exposes exactly the original's instance attributes, and
an attribute assignment through either object is visible through the
other. -/
theorem proxy_shares_dict :
    ∀ (h : Heap) (self : PyObj),
      self.dictRef < h.dicts.length →
      (proxy h self).2.dictRef = self.dictRef
      ∧ (∀ k, ((proxy h self).1).getattrOf (proxy h self).2 k =
          ((proxy h self).1).getattrOf self k)
      ∧ (∀ k, ((proxy h self).1).getattrOf (proxy h self).2 k =
          h.getattrOf self k)
      ∧ (∀ k v,
          (((proxy h self).1).setattrOf (proxy h self).2 k v).getattrOf self k
            = some v)
      ∧ (∀ k v,
          (((proxy h self).1).setattrOf self k v).getattrOf (proxy h self).2 k
            = some v) := by
  intro h self hlt
  have hlen : self.dictRef < ((h.dicts ++ [[]]).length) := by
    simp
    omega
  have hset : ∀ d : Row,
      ((h.dicts ++ [[]]).set self.dictRef d).getD self.dictRef [] = d := by
    intro d
    rw [List.getD_eq_getElem?_getD, List.getElem?_set_self hlen]
    rfl
  refine ⟨rfl, fun k => rfl, ?_, ?_, ?_⟩
  · intro k
    show ((h.dicts ++ [[]]).getD self.dictRef []).lookup k
        = (h.dicts.getD self.dictRef []).lookup k
    rw [List.getD_append _ _ _ _ hlt]
  · intro k v
    show ((((h.dicts ++ [[]]).set self.dictRef _)).getD self.dictRef []).lookup k
        = some v
    rw [hset, lookup_setAttrMap]
  · intro k v
    show ((((h.dicts ++ [[]]).set self.dictRef _)).getD self.dictRef []).lookup k
        = some v
    rw [hset, lookup_setAttrMap]

/-- Witness for C8: on a one-object heap, an assignment through the proxy is
read back through the original object. -/
theorem proxy_shares_dict_witness :
    ((⟨0⟩ : PyObj).dictRef < (⟨[[("x", PyVal.int 1)]]⟩ : Heap).dicts.length)
    ∧ (((proxy ⟨[[("x", PyVal.int 1)]]⟩ ⟨0⟩).1).setattrOf
         (proxy ⟨[[("x", PyVal.int 1)]]⟩ ⟨0⟩).2 "y" (PyVal.int 7)).getattrOf
         ⟨0⟩ "y" = some (PyVal.int 7) := by
  refine ⟨by decide, ?_⟩
  exact (proxy_shares_dict ⟨[[("x", PyVal.int 1)]]⟩ ⟨0⟩
    (by decide)).2.2.2.1 "y" (PyVal.int 7)

/-- Helper: membership of a key in the generator of non-foreign-key field
names, as the Boolean the claim's phrasing uses. -/
theorem contains_nonFKnames (flds : List FieldInfo) (k : String) :
    (((flds.filter (fun f => !f.isFK)).map (fun f => f.name)).contains k)
      = flds.any (fun f => !f.isFK && f.name == k) := by
  induction flds with
  | nil => rfl
  | cons f t ih =>
      cases hf : f.isFK with
      | true => simpa [hf] using ih
      | false =>
          by_cases hk : f.name = k
          · simp [hf, hk]
          · have hk2 : (k == f.name) = false :=
              beq_eq_false_iff_ne.mpr (fun hh => hk hh.symm)
            have hk3 : (f.name == k) = false := beq_eq_false_iff_ne.mpr hk
            simpa [hf, hk2, hk3] using ih

/-- Helper: one `try/except KeyError` iteration of the foreign-key loop,
re-expressed through dictionary lookups. -/
theorem putFKStep_eq (data : Kwargs) (obj : Row) (nm : String) :
    putFKStep data obj nm =
      match data.lookup nm with
      | some v => setAttrMap obj nm v
      | Option.none =>
          match data.lookup (nm ++ "_id") with
          | some v => setAttrMap obj (nm ++ "_id") v
          | Option.none => obj := by
  cases h1 : data.lookup nm with
  | some v => simp [putFKStep, dictGetItem, h1]
  | none =>
      cases h2 : data.lookup (nm ++ "_id") with
      | some v => simp [putFKStep, dictGetItem, h1, h2]
      | none => simp [putFKStep, dictGetItem, h1, h2]

/-- C3: `ExternalManager.put(**data)` builds the saved-and-returned
instance exactly as specified: non-foreign-key fields are initialized from
exactly those entries of `data` whose keys name non-foreign-key model
fields; each foreign-key field named `name` is set from `data[name]`, or
(under the `name + '_id'` attribute) from `data[name + '_id']` when key
`name` is absent, and left unset when both are absent; keys naming no
model field are ignored. -/
theorem put_matches_specification :
    ∀ (flds : List FieldInfo) (data : Kwargs),
      put flds data = putAsSpecified flds data := by
  intro flds data
  unfold put putAsSpecified
  rw [List.foldl_map]
  congr 1
  · funext obj f
    rw [putFKStep_eq]
  · apply List.filter_congr
    intro kv _
    exact contains_nonFKnames flds kv.1
